import Mathlib

/-!
Verification development for the quickgame matchmaking / tournament server.

The TypeScript sources are shallowly embedded:
JavaScript Map objects (insertion-ordered, unique keys) become association
lists with get/set/delete operations; JavaScript objects used as dictionaries
(keyed by a player index that may be the -1 returned by findIndex) become
association lists keyed by Int; socket emissions become explicit event lists
returned by each handler; timer callbacks become explicit step functions, with
the installed-interval handle and its captured timeLeft variable stored in the
game-instance record.  Randomness (match ids, the random game sequence, the
random rage-quit message) is passed in as oracle parameters.
-/

namespace QuickGame

/-! JavaScript Map model: association list with unique keys in insertion
order.  Map.get / Map.set / Map.delete. -/

def mget {κ α : Type} [DecidableEq κ] : List (κ × α) → κ → Option α
  | [], _ => none
  | (k', v) :: rest, k => if k' = k then some v else mget rest k

def mset {κ α : Type} [DecidableEq κ] : List (κ × α) → κ → α → List (κ × α)
  | [], k, v => [(k, v)]
  | (k', v') :: rest, k, v =>
      if k' = k then (k, v) :: rest else (k', v') :: mset rest k v

def mdel {κ α : Type} [DecidableEq κ] (m : List (κ × α)) (k : κ) : List (κ × α) :=
  m.filter (fun e => decide (e.1 ≠ k))

/-! Embedding of src/games/game-registry.ts.

GameConfig mirrors the GameConfig interface of src/games/game-interface.ts
(the description string is carried verbatim).  Each of the four configs is
copied from the corresponding game class in src/games/server/.  The
constructed engine is represented by its config: the game constructors only
store the players and call initializeGameData, which never throws, so
construction succeeds exactly when createGame reaches it. -/

structure GameConfig where
  id : String
  name : String
  description : String
  minPlayers : Nat
  maxPlayers : Nat
  duration : Nat
  category : String
deriving DecidableEq, Repr

namespace Registry

def reactionTimeConfig : GameConfig :=
  { id := "reaction-time", name := "Reaction Time",
    description := "Click as fast as you can when the light turns green!",
    minPlayers := 2, maxPlayers := 2, duration := 15000, category := "reaction" }

def ticTacToeConfig : GameConfig :=
  { id := "tic-tac-toe", name := "Tic Tac Toe",
    description := "Classic 3x3 grid game - get three in a row!",
    minPlayers := 2, maxPlayers := 2, duration := 30000, category := "strategy" }

def rockPaperScissorsConfig : GameConfig :=
  { id := "rock-paper-scissors", name := "Rock Paper Scissors",
    description := "Best of 3 rounds - rock beats scissors, paper beats rock, scissors beats paper!",
    minPlayers := 2, maxPlayers := 2, duration := 30000, category := "chance" }

def whackAMoleConfig : GameConfig :=
  { id := "whack-a-mole", name := "Whack a Mole",
    description := "Click the moles as fast as you can! Most hits wins!",
    minPlayers := 2, maxPlayers := 2, duration := 10000, category := "reaction" }

/-- Registration order of the static initialization block of GameRegistry. -/
def games : List (String × GameConfig) :=
  [("reaction-time", reactionTimeConfig),
   ("tic-tac-toe", ticTacToeConfig),
   ("rock-paper-scissors", rockPaperScissorsConfig),
   ("whack-a-mole", whackAMoleConfig)]

/-- GameRegistry.createGame: null when the id is unregistered or the player
count is outside the config range; otherwise the constructed engine
(represented by its config). -/
def createGame (gameId : String) (playerCount : Nat) : Option GameConfig :=
  match mget games gameId with
  | none => none
  | some cfg =>
      if playerCount < cfg.minPlayers ∨ playerCount > cfg.maxPlayers then none
      else some cfg

end Registry

/-! Shared pieces of src/games/game-interface.ts. -/

/-- BaseGame.state values. -/
inductive GState
  | waiting
  | countdown
  | playing
  | finished
deriving DecidableEq, Repr

/-- GameResult of src/games/game-interface.ts (the free-form gameData payload
is not modelled; no claim inspects it). -/
structure GameResult where
  winnerId : Option String
  isDraw : Bool
  scores : List (String × Nat)
deriving DecidableEq, Repr

/-- Array.prototype.findIndex over this.players: the index of the player with
the given id, or -1 when the id is not seated. -/
def playerIndexOf (players : List String) (pid : String) : Int :=
  match players.findIdx? (fun p => decide (p = pid)) with
  | some i => (i : Int)
  | none => -1

/-! Embedding of src/games/server/rock-paper-scissors.ts.

Valid choice strings become the Choice type; an action whose choice field is
not one of rock/paper/scissors is the none case.  gameData.choices is a plain
object keyed by the playerIndex from findIndex, so a key of -1 is possible:
the map is keyed by Int.  determineRoundWinner receives
this.gameData.choices[0] and [1], which may be undefined, hence the Option
arguments. -/

namespace RPS

inductive Choice
  | rock
  | paper
  | scissors
deriving DecidableEq, Repr

/-- RockPaperScissorsGame.determineRoundWinner: -1 draw, 0 player one wins,
1 player two wins.  Undefined inputs (a missing choice) fall through every
winning pattern to the return 1 branch, as in JavaScript. -/
def determineRoundWinner (choice1 choice2 : Option Choice) : Int :=
  if choice1 = choice2 then -1
  else if (choice1 = some .rock ∧ choice2 = some .scissors) ∨
          (choice1 = some .paper ∧ choice2 = some .rock) ∨
          (choice1 = some .scissors ∧ choice2 = some .paper) then 0
  else 1

/-- View of the winner field sent in a round-result event. -/
inductive RoundView
  | you
  | draw
  | opponent
deriving DecidableEq, Repr

/-- Events emitted by the engine to a player index. -/
inductive REmit
  | roundResult (playerIdx : Nat) (winner : RoundView)
deriving DecidableEq, Repr

structure RPSState where
  rounds : Nat
  maxRounds : Nat
  choices : List (Int × Choice)
  scores : Nat × Nat
  roundHistory : List (Nat × (Option Choice × Option Choice) × Int)
  state : GState
deriving DecidableEq, Repr

/-- Initial gameData of RockPaperScissorsGame after startGame. -/
def initRPS : RPSState :=
  { rounds := 0, maxRounds := 3, choices := [], scores := (0, 0),
    roundHistory := [], state := .playing }

/-- RockPaperScissorsGame.resolveRound.  The next-round event scheduled by the
2-second setTimeout in the non-final branch is not modelled (no claim inspects
it); the immediate round-result broadcasts are. -/
def resolveRound (s : RPSState) : RPSState × List REmit :=
  let choice1 := mget s.choices 0
  let choice2 := mget s.choices 1
  let winner := determineRoundWinner choice1 choice2
  let scores :=
    if winner = 0 then (s.scores.1 + 1, s.scores.2)
    else if winner = 1 then (s.scores.1, s.scores.2 + 1)
    else s.scores
  let hist := s.roundHistory ++ [(s.rounds + 1, (choice1, choice2), winner)]
  let emits :=
    [REmit.roundResult 0
       (if winner = 0 then .you else if winner = -1 then .draw else .opponent),
     REmit.roundResult 1
       (if winner = 1 then .you else if winner = -1 then .draw else .opponent)]
  let s' := { s with rounds := s.rounds + 1, choices := [],
                     scores := scores, roundHistory := hist }
  if s'.rounds ≥ s'.maxRounds then ({ s' with state := .finished }, emits)
  else (s', emits)

/-- RockPaperScissorsGame.handlePlayerAction.  playerIndex comes from
findIndex and is never checked against -1. -/
def handlePlayerAction (players : List String) (s : RPSState) (pid : String)
    (choice : Option Choice) : RPSState × List REmit :=
  let playerIndex := playerIndexOf players pid
  match choice with
  | none => (s, [])
  | some c =>
      if (mget s.choices playerIndex).isSome then (s, [])
      else
        let s' := { s with choices := mset s.choices playerIndex c }
        if s'.choices.length = 2 then resolveRound s' else (s', [])

end RPS

/-! Embedding of the TicTacToeGame served by the registry (the class whose
handlePlayerAction marks this.state finished on game end).

Cells hold null or a symbol.  handlePlayerAction receives the findIndex
player index (Int, -1 when unseated) and the requested cell position.  The
engine never checks its lifecycle state, so the step function accepts actions
on any state; the claims quantify over boards reached this way. -/

namespace TTT

inductive Sym
  | X
  | O
deriving DecidableEq, Repr

/-- gameData.playerSymbols: player 0 plays X, player 1 plays O. -/
def playerSymbols : List Sym := [Sym.X, Sym.O]

structure TTTState where
  board : List (Option Sym)
  currentPlayer : Nat
  moves : Nat
deriving DecidableEq, Repr

/-- TicTacToeGame.initializeGameData. -/
def initTTT : TTTState :=
  { board := List.replicate 9 none, currentPlayer := 0, moves := 0 }

/-- TicTacToeGame.handlePlayerAction: the validation rejects a move unless it
is the mover's turn, the position is inside [0,9) and the cell is empty;
otherwise the symbol is placed, the turn flips and the move counter grows. -/
def tttStep (s : TTTState) (playerIndex position : Int) : TTTState :=
  if playerIndex ≠ (s.currentPlayer : Int) ∨ position < 0 ∨ 9 ≤ position ∨
     (s.board.getD position.toNat none).isSome then s
  else
    { board := s.board.set position.toNat
        (some (playerSymbols.getD playerIndex.toNat Sym.X)),
      currentPlayer := 1 - s.currentPlayer,
      moves := s.moves + 1 }

/-- TicTacToeGame.checkGameEnd winning combinations, in source order. -/
def winPatterns : List (Nat × Nat × Nat) :=
  [(0, 1, 2), (3, 4, 5), (6, 7, 8),
   (0, 3, 6), (1, 4, 7), (2, 5, 8),
   (0, 4, 8), (2, 4, 6)]

/-- Condition board[a] && board[a]===board[b] && board[a]===board[c] of one
winning pattern, returning its symbol when it holds. -/
def monoSym (b : List (Option Sym)) : Nat × Nat × Nat → Option Sym
  | (a, b2, c) =>
      match b.getD a none with
      | some s => if b.getD b2 none = some s ∧ b.getD c none = some s
                  then some s else none
      | none => none

inductive TTTOutcome
  | winner (playerIndex : Nat) (pattern : Nat × Nat × Nat) (symbol : Sym)
  | draw
deriving DecidableEq, Repr

/-- TicTacToeGame.checkGameEnd: the first pattern (in source order) that is
monochromatic and non-empty yields a winner result naming the player whose
symbol it is; with no such pattern, moves === 9 yields a draw, else null. -/
def checkGameEnd (s : TTTState) : Option TTTOutcome :=
  match winPatterns.find? (fun p => (monoSym s.board p).isSome) with
  | some p =>
      let sym := (monoSym s.board p).getD Sym.X
      some (.winner (playerSymbols.findIdx (fun x => decide (x = sym))) p sym)
  | none => if s.moves = 9 then some .draw else none

/-- Run a sequence of raw actions (player index from findIndex, requested
position) through handlePlayerAction from the initial state. -/
def tttRun (acts : List (Int × Int)) : TTTState :=
  acts.foldl (fun s a => tttStep s a.1 a.2) initTTT

/-- Some row, column or diagonal holds three identical non-empty symbols. -/
def hasLine (b : List (Option Sym)) : Prop :=
  ∃ p ∈ winPatterns, (monoSym b p).isSome

instance (b : List (Option Sym)) : Decidable (hasLine b) := by
  unfold hasLine; infer_instance

/-- Specification predicate for claim C4 at a single state. -/
def tttSpec (s : TTTState) : Prop :=
  ((∃ i p sym, checkGameEnd s = some (TTTOutcome.winner i p sym)) ↔ hasLine s.board)
  ∧ (∀ i p sym, checkGameEnd s = some (TTTOutcome.winner i p sym) →
      p ∈ winPatterns ∧ monoSym s.board p = some sym ∧ playerSymbols.getD i Sym.X = sym)
  ∧ (checkGameEnd s = some TTTOutcome.draw ↔ (s.moves = 9 ∧ ¬ hasLine s.board))
  ∧ (checkGameEnd s = none ↔ (s.moves ≠ 9 ∧ ¬ hasLine s.board))
  ∧ s.moves = s.board.countP (fun c => c.isSome)

end TTT

/-! Embedding of ReactionTimeGame.checkGameEnd, both-click-then-compare
variant (the class in src/games/server/reaction-time.ts whose gameData has a
bothPlayersClicked flag).  gameData.playerClicks maps a player id to the
Date.now() timestamp of its first click after the signal; reaction time is
click time minus greenLightStartTime.  Timestamps are Int. -/

namespace RTBoth

/-- The reactionTimes object computed from playerClicks. -/
def reactionTimesOf (clicks : List (String × Int)) (green : Int) :
    List (String × Int) :=
  clicks.map (fun c => (c.1, c.2 - green))

/-- The fastest-player loop: start from the first clicked player and replace
on strictly smaller reaction time (ties keep the earlier key). -/
def fastestIn (entries : List (String × Int)) (first : String × Int) : String :=
  (entries.foldl (fun best e => if e.2 < best.2 then e else best) first).1

/-- ReactionTimeGame.checkGameEnd (both-click variant): two clicks compare
reaction times, one click wins outright, zero clicks draw with all scores 0.
This variant returns a result in every branch. -/
def checkGameEnd (players : List String) (clicks : List (String × Int))
    (green : Int) : GameResult :=
  let rts := reactionTimesOf clicks green
  if clicks.length = 2 then
    let fastest := fastestIn rts (rts.getD 0 ("", 0))
    { winnerId := some fastest, isDraw := false,
      scores := players.map (fun pid => (pid, if pid = fastest then 1 else 0)) }
  else if clicks.length = 1 then
    let clickedPlayerId := (clicks.getD 0 ("", 0)).1
    { winnerId := some clickedPlayerId, isDraw := false,
      scores := players.map (fun pid => (pid, if pid = clickedPlayerId then 1 else 0)) }
  else
    { winnerId := none, isDraw := true,
      scores := players.map (fun pid => (pid, 0)) }

end RTBoth

/-! Embedding of ReactionTimeGame.checkGameEnd, first-click-wins variant (the
superseded revision embedded in the same source file): any recorded click ends
the game and the earliest raw timestamp wins. -/

namespace RTFirst

/-- ReactionTimeGame.checkGameEnd (first-click variant). -/
def checkGameEnd (players : List String) (clicks : List (String × Int)) :
    GameResult :=
  if clicks.length > 0 then
    let fastest :=
      (clicks.foldl (fun best e => if e.2 < best.2 then e else best)
        (clicks.getD 0 ("", 0))).1
    { winnerId := some fastest, isDraw := false,
      scores := players.map (fun pid => (pid, if pid = fastest then 1 else 0)) }
  else
    { winnerId := none, isDraw := true,
      scores := players.map (fun pid => (pid, 0)) }

end RTFirst

/-! Embedding of src/games/server/whack-a-mole.ts (handlePlayerAction).

gameData.scores is the array [0,0]; an access scores[playerIndex] with the -1
of findIndex reads a plain object property: undefined, and undefined + 1 is
NaN, which the ++ then stores under key -1.  The association list is keyed by
Int and a value of none models NaN.  The following line
this.players[playerIndex].score = ... dereferences undefined for an unseated
player and throws a TypeError; the threw flag of the result records that, and
the state accumulated before the throw is kept, as in JavaScript. -/

namespace WAM

inductive WEmit
  | scoreUpdate
  | moleHit
deriving DecidableEq, Repr

structure WamState where
  moles : List Bool
  activeMole : Int
  scores : List (Int × Option Nat)
  hits : Nat
deriving DecidableEq, Repr

/-- WhackAMoleGame.handlePlayerAction.  Returns the state after the call, the
events emitted and whether a TypeError was thrown.  A hit is accepted when the
position equals the active mole and that mole flag is set (a negative or
out-of-range position reads undefined from the moles array, which is falsy). -/
def handlePlayerAction (players : List String) (s : WamState) (pid : String)
    (position : Int) : WamState × List WEmit × Bool :=
  let playerIndex := playerIndexOf players pid
  if position = s.activeMole ∧ 0 ≤ position ∧
     s.moles.getD position.toNat false then
    let newScore : Option Nat :=
      match mget s.scores playerIndex with
      | some (some n) => some (n + 1)
      | some none => none
      | none => none
    let s1 := { s with scores := mset s.scores playerIndex newScore }
    if playerIndex < 0 ∨ playerIndex ≥ (players.length : Int) then
      (s1, [], true)
    else
      let s2 := { s1 with moles := s1.moles.set position.toNat false,
                          activeMole := -1, hits := s1.hits + 1 }
      (s2, [WEmit.scoreUpdate, WEmit.moleHit], false)
  else (s, [], false)

end WAM

/-! Embedding of the coordinator in src/server-modular.ts.

The five in-memory stores become fields of ServerState; each socket handler
becomes a function from state to state plus the list of (socket id, event)
emissions it performs.  A GameInstance carries the config of its engine
(game.config), the engine's player list (game.players), its lifecycle state,
a flag for the installed timerInterval handle and the timeLeft variable
captured by that interval's closure.  Engine-internal events (start-signal,
mole and round traffic) are engine-specific and are represented only by the
game-start emission every engine performs in onGameStart; the server-owned
countdown, timer-update and game-end emissions are modelled exactly.  The
engine result consumed by endGame is passed in as a parameter, and the
5-second disposal timeout after endGame is not modelled (no claim inspects
it). -/

namespace Server

structure Player where
  id : String
  name : String
  score : Nat
deriving DecidableEq, Repr

/-- Match.state values (the Match interface also allows ready-up). -/
inductive MState
  | waiting
  | countdown
  | playing
  | finished
  | readyUp
deriving DecidableEq, Repr

structure Match where
  id : String
  players : List Player
  gameQueue : List String
  currentGameIndex : Nat
  matchScores : List (String × Nat)
  readyStatus : List (String × Bool)
  state : MState
deriving DecidableEq, Repr

structure GameInstance where
  id : String
  matchId : String
  config : GameConfig
  players : List Player
  state : GState
  timerOn : Bool
  timeLeft : Int
deriving DecidableEq, Repr

inductive Ev
  | waitingForOpponent (queuePosition queueSize : Nat)
  | queueStatusUpdate (queueSize position : Nat)
  | leftQueue
  | gameFound (gameId opponentName gameType : String)
  | countdown (n : Nat)
  | gameStart
  | timerUpdate (secondsLeft : Int)
  | gameEnd (winner draw : Bool)
  | matchmakingError
  | opponentRageQuit
  | opponentDisconnected
  | gameError
deriving DecidableEq, Repr

/-- A single socket emission: target socket id and event. -/
abbrev Emit : Type := String × Ev

structure ServerState where
  waitingQueue : List Player
  activeMatches : List (String × Match)
  activeGames : List (String × GameInstance)
  connectedPlayers : List (String × Player)
  playerToMatch : List (String × String)
deriving DecidableEq, Repr

def initialServer : ServerState :=
  { waitingQueue := [], activeMatches := [], activeGames := [],
    connectedPlayers := [], playerToMatch := [] }

/-- broadcastQueueStatus: a queue-status-update to every waiting player with
the queue size and the 1-based position. -/
def broadcastQueueStatusEmits (q : List Player) : List Emit :=
  q.enum.map (fun ip => (ip.2.id, Ev.queueStatusUpdate q.length (ip.1 + 1)))

/-- removePlayerFromQueue: splice out the first queue entry with this id. -/
def removePlayerFromQueue : List Player → String → List Player
  | [], _ => []
  | p :: rest, pid =>
      if p.id = pid then rest else p :: removePlayerFromQueue rest pid

/-- findGameInstance: the first active game (in insertion order) seating this
player id. -/
def findGameInstance (s : ServerState) (pid : String) : Option GameInstance :=
  (s.activeGames.find?
    (fun e => e.2.players.any (fun p => decide (p.id = pid)))).map (fun e => e.2)

/-- createMatch: build the Match record, store it in activeMatches and point
both players' playerToMatch entries at it.  The matchScores and readyStatus
maps are built by two Map.set calls each. -/
def createMatch (s : ServerState) (p1 p2 : Player) (matchId : String)
    (gameQueue : List String) : ServerState × Match :=
  let m : Match :=
    { id := matchId, players := [p1, p2], gameQueue := gameQueue,
      currentGameIndex := 0,
      matchScores := mset (mset [] p1.id 0) p2.id 0,
      readyStatus := mset (mset [] p1.id false) p2.id false,
      state := .countdown }
  ({ s with activeMatches := mset s.activeMatches matchId m,
            playerToMatch := mset (mset s.playerToMatch p1.id matchId) p2.id matchId },
   m)

/-- createGameInstanceForMatch: none models the throw on a failed
GameRegistry.createGame (an out-of-range currentGameIndex reads undefined
from the game queue, modelled by the never-registered empty string). -/
def createGameInstanceForMatch (s : ServerState) (m : Match) (gameId : String) :
    Option (ServerState × GameInstance) :=
  let gameType := m.gameQueue.getD m.currentGameIndex ""
  match Registry.createGame gameType m.players.length with
  | none => none
  | some cfg =>
      let gi : GameInstance :=
        { id := gameId, matchId := m.id, config := cfg, players := m.players,
          state := .countdown, timerOn := false, timeLeft := 0 }
      some ({ s with activeGames := mset s.activeGames gameId gi }, gi)

/-- The join-queue handler.  The random game sequence and the generated match
and game ids are oracle parameters.  On pairing, createMatch runs before game
creation can fail; the catch branch pushes both players back into the queue
and reports a matchmaking-error to each, leaving the stores as they are at
that point.  startCountdown's synchronous part emits countdown 3 to both. -/
def joinQueue (s : ServerState) (sid name : String) (gameQueue : List String)
    (matchId gameId : String) : ServerState × List Emit :=
  let player : Player := { id := sid, name := name, score := 0 }
  let s := { s with connectedPlayers := mset s.connectedPlayers sid player }
  match s.waitingQueue with
  | opponent :: rest =>
      let s := { s with waitingQueue := rest }
      let sm := createMatch s opponent player matchId gameQueue
      match createGameInstanceForMatch sm.1 sm.2 gameId with
      | some sgi =>
          let gi := sgi.2
          let emits :=
            [(opponent.id, Ev.gameFound gi.id player.name gi.config.id),
             (sid, Ev.gameFound gi.id opponent.name gi.config.id)]
            ++ gi.players.map (fun p => (p.id, Ev.countdown 3))
            ++ broadcastQueueStatusEmits sgi.1.waitingQueue
          (sgi.1, emits)
      | none =>
          let s := { sm.1 with waitingQueue := sm.1.waitingQueue ++ [opponent, player] }
          let emits :=
            [(opponent.id, Ev.matchmakingError), (sid, Ev.matchmakingError)]
            ++ broadcastQueueStatusEmits s.waitingQueue
          (s, emits)
  | [] =>
      let s := { s with waitingQueue := s.waitingQueue ++ [player] }
      let emits :=
        [(sid, Ev.waitingForOpponent s.waitingQueue.length s.waitingQueue.length)]
        ++ broadcastQueueStatusEmits s.waitingQueue
      (s, emits)

/-- The match-score update performed by endGame: a decisive result adds one
win to the winner's entry, a draw changes nothing. -/
def updateMatchScores (scores : List (String × Nat)) (r : GameResult) :
    List (String × Nat) :=
  match r.winnerId with
  | some w => if r.isDraw then scores
              else mset scores w ((mget scores w).getD 0 + 1)
  | none => scores

/-- The endGame function: mark the instance finished, drop its timer, take the
engine result (parameter, see the namespace note), and if the owning match is
still present update its scores and send each player a personalized game-end;
when the match is gone the function logs and returns before any emission. -/
def endGame (s : ServerState) (gid : String) (result : GameResult) :
    ServerState × List Emit :=
  match mget s.activeGames gid with
  | none => (s, [])
  | some gi =>
      let gi := { gi with state := .finished, timerOn := false }
      let s := { s with activeGames := mset s.activeGames gid gi }
      match mget s.activeMatches gi.matchId with
      | none => (s, [])
      | some m =>
          let m := { m with matchScores := updateMatchScores m.matchScores result }
          let s := { s with activeMatches := mset s.activeMatches gi.matchId m }
          let emits := gi.players.map (fun p =>
            (p.id, Ev.gameEnd (decide (result.winnerId = some p.id)) result.isDraw))
          (s, emits)

/-- The startGame function (entered when the countdown reaches zero): set the
instance playing, let the engine emit its game-start, compute
Math.ceil(duration / 1000) and send the initial timer-update, and install the
1-second timer interval with that timeLeft in its closure. -/
def startGame (s : ServerState) (gid : String) : ServerState × List Emit :=
  match mget s.activeGames gid with
  | none => (s, [])
  | some gi =>
      let timeLeft : Int := ((gi.config.duration + 999) / 1000 : Nat)
      let gi := { gi with state := .playing, timerOn := true, timeLeft := timeLeft }
      let emits :=
        gi.players.map (fun p => (p.id, Ev.gameStart))
        ++ gi.players.map (fun p => (p.id, Ev.timerUpdate timeLeft))
      ({ s with activeGames := mset s.activeGames gid gi }, emits)

/-- One firing of the timer interval installed by startGame (only possible
while the interval handle is installed).  The closure decrements timeLeft;
while the game is playing and time remains it broadcasts timer-update; at
zero it clears the interval and, if still playing, ends the game with the
engine result passed as a parameter; if the game ended early it just clears
the interval. -/
def timerTick (s : ServerState) (gid : String) (result : GameResult) :
    ServerState × List Emit :=
  match mget s.activeGames gid with
  | none => (s, [])
  | some gi =>
      if ¬ gi.timerOn then (s, [])
      else
        let t := gi.timeLeft - 1
        if gi.state = .playing ∧ 0 < t then
          let gi := { gi with timeLeft := t }
          ({ s with activeGames := mset s.activeGames gid gi },
           gi.players.map (fun p => (p.id, Ev.timerUpdate t)))
        else if t ≤ 0 then
          let gi := { gi with timeLeft := t, timerOn := false }
          let s := { s with activeGames := mset s.activeGames gid gi }
          if gi.state = .playing then endGame s gid result else (s, [])
        else
          let gi := { gi with timeLeft := t, timerOn := false }
          ({ s with activeGames := mset s.activeGames gid gi }, [])

/-- The rage-quit handler: resolve the match through playerToMatch, notify
the opponent once (the snarky message text is random and not modelled), then
delete the match and both routing entries.  The game instance, its timers and
activeGames are not touched. -/
def rageQuit (s : ServerState) (sid : String) : ServerState × List Emit :=
  match mget s.playerToMatch sid with
  | none => (s, [])
  | some matchId =>
      match mget s.activeMatches matchId with
      | none => (s, [])
      | some m =>
          let emits :=
            match m.players.find? (fun p => decide (p.id ≠ sid)) with
            | some opp => [(opp.id, Ev.opponentRageQuit)]
            | none => []
          ({ s with activeMatches := mdel s.activeMatches matchId,
                    playerToMatch :=
                      m.players.foldl (fun acc p => mdel acc p.id) s.playerToMatch },
           emits)

/-- The disconnect handler: drop the player from the queue, broadcast queue
status, and if the player sits in an active game notify the opponent, invoke
the engine cleanup (engine-internal, no server-visible state) and delete the
instance from activeGames; finally remove the player from connectedPlayers.
Neither activeMatches nor playerToMatch is touched. -/
def disconnect (s : ServerState) (sid : String) : ServerState × List Emit :=
  let s := { s with waitingQueue := removePlayerFromQueue s.waitingQueue sid }
  let emits := broadcastQueueStatusEmits s.waitingQueue
  match findGameInstance s sid with
  | some gi =>
      let emits := emits ++
        (match gi.players.find? (fun p => decide (p.id ≠ sid)) with
         | some opp => [(opp.id, Ev.opponentDisconnected)]
         | none => [])
      let s := { s with activeGames := mdel s.activeGames gi.id }
      ({ s with connectedPlayers := mdel s.connectedPlayers sid }, emits)
  | none =>
      ({ s with connectedPlayers := mdel s.connectedPlayers sid }, emits)

/-- Sum of the two tournament players' cumulative match scores, read the way
endGame reads them (a missing entry counts 0). -/
def matchScoreSum (scores : List (String × Nat)) (p1 p2 : String) : Nat :=
  (mget scores p1).getD 0 + (mget scores p2).getD 0

end Server

/-! Concrete executions of the embedded handlers, used by the witnesses and
counterexamples below.  Oracle choices: generated ids m0/g0/m1/g1 and the
game sequence starting with reaction-time that the current selection policy
always produces (gqBad stands for a hypothetical sequence naming an
unregistered type, which exercises the catch branch of join-queue). -/

namespace Scenario

def gq0 : List String := ["reaction-time", "tic-tac-toe", "whack-a-mole"]

def gqBad : List String := ["mystery-game", "tic-tac-toe", "whack-a-mole"]

def aliceP : Server.Player := { id := "alice", name := "Alice", score := 0 }

def bobP : Server.Player := { id := "bob", name := "Bob", score := 0 }

/-- State after alice joins the empty queue. -/
def s1 : Server.ServerState :=
  (Server.joinQueue Server.initialServer "alice" "Alice" gq0 "m0" "g0").1

/-- State after bob joins and is paired with alice (match m1, game g1). -/
def s2 : Server.ServerState := (Server.joinQueue s1 "bob" "Bob" gq0 "m1" "g1").1

/-- State after the countdown finishes and game g1 starts playing. -/
def s3 : Server.ServerState := (Server.startGame s2 "g1").1

/-- The match record stored under m1 in s3. -/
def m1val : Server.Match :=
  { id := "m1", players := [aliceP, bobP], gameQueue := gq0,
    currentGameIndex := 0, matchScores := [("alice", 0), ("bob", 0)],
    readyStatus := [("alice", false), ("bob", false)], state := .countdown }

/-- The game instance stored under g1 in s3. -/
def gi1val : Server.GameInstance :=
  { id := "g1", matchId := "m1", config := Registry.reactionTimeConfig,
    players := [aliceP, bobP], state := .playing, timerOn := true, timeLeft := 15 }

/-- Alice rage-quits while g1 is playing. -/
def rageOut : Server.ServerState × List Server.Emit := Server.rageQuit s3 "alice"

def drawResult : GameResult := { winnerId := none, isDraw := true, scores := [] }

/-- The next firing of the still-installed g1 timer interval, after the
rage-quit. -/
def tickOut : Server.ServerState × List Server.Emit :=
  Server.timerTick rageOut.1 "g1" drawResult

/-- Bob joins against waiting alice but the chosen sequence starts with an
unregistered game type, so game creation fails after createMatch ran. -/
def c2out : Server.ServerState × List Server.Emit :=
  Server.joinQueue s1 "bob" "Bob" gqBad "m1" "g1"

/-- The connection already waiting as alice emits join-queue a second time. -/
def c3out : Server.ServerState × List Server.Emit :=
  Server.joinQueue s1 "alice" "Alice" gq0 "m1" "g1"

/-- Rock-paper-scissors mid-round state: seated player 0 already chose rock. -/
def rpsMid : RPS.RPSState := { RPS.initRPS with choices := [(0, RPS.Choice.rock)] }

/-- An unseated connection zed submits a valid choice to that game. -/
def rpsGhostOut : RPS.RPSState × List RPS.REmit :=
  RPS.handlePlayerAction ["alice", "bob"] rpsMid "zed" (some RPS.Choice.scissors)

/-- Whack-a-mole state with the mole active at position 4. -/
def wamMid : WAM.WamState :=
  { moles := [false, false, false, false, true, false, false, false, false],
    activeMole := 4, scores := [(0, some 0), (1, some 0)], hits := 0 }

/-- An unseated connection zed targets the currently active mole. -/
def wamGhostOut : WAM.WamState × List WAM.WEmit × Bool :=
  WAM.handlePlayerAction ["alice", "bob"] wamMid "zed" 4

/-- A legal alternating tic-tac-toe line for player 0: X takes the top row. -/
def actsW : List (Int × Int) := [(0, 0), (1, 3), (0, 1), (1, 4), (0, 2)]

end Scenario

/-! Map lemmas. -/

theorem mget_mset_self {κ α : Type} [DecidableEq κ] (m : List (κ × α)) (k : κ)
    (v : α) : mget (mset m k v) k = some v := by
  induction m with
  | nil => simp [mset, mget]
  | cons e rest ih =>
      obtain ⟨k', v'⟩ := e
      by_cases h : k' = k
      · simp [mset, h, mget]
      · simp [mset, h, mget, ih]

theorem mget_mset_ne {κ α : Type} [DecidableEq κ] (m : List (κ × α)) {k k' : κ}
    (v : α) (h : k ≠ k') : mget (mset m k v) k' = mget m k' := by
  induction m with
  | nil => simp [mset, mget, h]
  | cons e rest ih =>
      obtain ⟨k0, v0⟩ := e
      by_cases h0 : k0 = k
      · subst h0; simp [mset, mget, h]
      · simp [mset, h0, mget, ih]

theorem mget_mdel_self {κ α : Type} [DecidableEq κ] (m : List (κ × α)) (k : κ) :
    mget (mdel m k) k = none := by
  induction m with
  | nil => simp [mdel, mget]
  | cons e rest ih =>
      obtain ⟨k0, v0⟩ := e
      by_cases h0 : k0 = k
      · simpa [mdel, h0] using ih
      · simpa [mdel, mget, h0] using ih

theorem mget_mdel_ne {κ α : Type} [DecidableEq κ] (m : List (κ × α)) {k k' : κ}
    (h : k ≠ k') : mget (mdel m k) k' = mget m k' := by
  induction m with
  | nil => simp [mdel, mget]
  | cons e rest ih =>
      obtain ⟨k0, v0⟩ := e
      by_cases h0 : k0 = k
      · have h1 : k0 ≠ k' := by rw [h0]; exact h
        simp only [mdel, List.filter_cons] at ih ⊢
        simpa [h0, h1, h, mget] using ih
      · by_cases h1 : k0 = k'
        · simp [mdel, List.filter_cons, h0, mget, h1, Ne.symm h]
        · simp only [mdel, List.filter_cons] at ih ⊢
          simpa [h0, h1, mget] using ih

theorem mget_foldl_mdel_of_none {σ κ α : Type} [DecidableEq κ] (f : σ → κ)
    (l : List σ) (acc : List (κ × α)) (k : κ) (h : mget acc k = none) :
    mget (l.foldl (fun a x => mdel a (f x)) acc) k = none := by
  induction l generalizing acc with
  | nil => simpa using h
  | cons x rest ih =>
      simp only [List.foldl_cons]
      apply ih
      by_cases h0 : f x = k
      · rw [h0]; exact mget_mdel_self acc k
      · rw [mget_mdel_ne acc h0]; exact h

theorem mget_foldl_mdel_mem {σ κ α : Type} [DecidableEq κ] (f : σ → κ)
    (l : List σ) (acc : List (κ × α)) (k : κ) (h : ∃ x ∈ l, f x = k) :
    mget (l.foldl (fun a x => mdel a (f x)) acc) k = none := by
  induction l generalizing acc with
  | nil => simp at h
  | cons x rest ih =>
      simp only [List.foldl_cons]
      obtain ⟨y, hy, hfy⟩ := h
      rcases List.mem_cons.mp hy with rfl | hyr
      · apply mget_foldl_mdel_of_none
        rw [hfy]; exact mget_mdel_self acc k
      · exact ih _ ⟨y, hyr, hfy⟩

/-! Helper lemmas for the tic-tac-toe reachability invariant. -/

theorem countP_set_some {α : Type} (l : List (Option α)) (n : Nat) (v : α)
    (hn : n < l.length) (he : l.getD n none = none) :
    (l.set n (some v)).countP (fun c => c.isSome) =
      l.countP (fun c => c.isSome) + 1 := by
  induction l generalizing n with
  | nil => simp at hn
  | cons a t ih =>
      cases n with
      | zero =>
          simp only [List.getD_cons_zero] at he
          subst he
          simp [List.countP_cons]
      | succ n =>
          simp only [List.getD_cons_succ] at he
          simp only [List.length_cons, Nat.succ_lt_succ_iff] at hn
          simp [List.countP_cons, ih n hn he]
          omega

theorem tttStep_inv (s : TTT.TTTState) (pi pos : Int)
    (h9 : s.board.length = 9)
    (hm : s.moves = s.board.countP (fun c => c.isSome)) :
    (TTT.tttStep s pi pos).board.length = 9 ∧
    (TTT.tttStep s pi pos).moves =
      (TTT.tttStep s pi pos).board.countP (fun c => c.isSome) := by
  unfold TTT.tttStep
  split
  · exact ⟨h9, hm⟩
  · rename_i hcond
    push_neg at hcond
    obtain ⟨hpi, hpos0, hpos9, hcell⟩ := hcond
    refine ⟨by simp [h9], ?_⟩
    have hlt : pos.toNat < s.board.length := by omega
    have hcell' : s.board.getD pos.toNat none = none := by
      cases hv : s.board.getD pos.toNat none with
      | none => rfl
      | some x => rw [hv] at hcell; simp at hcell
    simp only [countP_set_some s.board pos.toNat _ hlt hcell', hm]

theorem tttRun_inv (acts : List (Int × Int)) :
    (TTT.tttRun acts).board.length = 9 ∧
    (TTT.tttRun acts).moves =
      (TTT.tttRun acts).board.countP (fun c => c.isSome) := by
  unfold TTT.tttRun
  suffices h : ∀ s : TTT.TTTState, s.board.length = 9 →
      s.moves = s.board.countP (fun c => c.isSome) →
      (acts.foldl (fun s a => TTT.tttStep s a.1 a.2) s).board.length = 9 ∧
      (acts.foldl (fun s a => TTT.tttStep s a.1 a.2) s).moves =
        (acts.foldl (fun s a => TTT.tttStep s a.1 a.2) s).board.countP
          (fun c => c.isSome) by
    exact h TTT.initTTT (by decide) (by decide)
  induction acts with
  | nil => intro s h1 h2; exact ⟨h1, h2⟩
  | cons a rest ih =>
      intro s h1 h2
      have h' := tttStep_inv s a.1 a.2 h1 h2
      simpa using ih _ h'.1 h'.2

theorem playerSymbols_getD_findIdx (sym : TTT.Sym) :
    TTT.playerSymbols.getD
      (TTT.playerSymbols.findIdx (fun x => decide (x = sym))) TTT.Sym.X = sym := by
  cases sym <;> rfl

/-- C4: on every board reachable through TicTacToeGame.handlePlayerAction
from the initial state, checkGameEnd yields a winner result iff some row,
column or diagonal holds three identical non-empty symbols, the winner being
the player owning that symbol; it yields a draw iff 9 moves have been made
with no such line; otherwise it yields null; and the move counter equals the
number of occupied cells, so 9 moves made means a full board. -/
theorem ttt_checkGameEnd_claim (acts : List (Int × Int)) :
    TTT.tttSpec (TTT.tttRun acts) := by
  obtain ⟨h9, hm⟩ := tttRun_inv acts
  set s := TTT.tttRun acts
  unfold TTT.tttSpec
  cases hfind : TTT.winPatterns.find? (fun q => (TTT.monoSym s.board q).isSome) with
  | some p =>
      have hmem : p ∈ TTT.winPatterns := List.mem_of_find?_eq_some hfind
      have hp : (TTT.monoSym s.board p).isSome := by
        simpa using List.find?_some hfind
      obtain ⟨sym, hsym⟩ := Option.isSome_iff_exists.mp hp
      have hres : TTT.checkGameEnd s =
          some (TTT.TTTOutcome.winner
            (TTT.playerSymbols.findIdx (fun x => decide (x = sym))) p sym) := by
        unfold TTT.checkGameEnd
        rw [hfind]
        simp [hsym]
      refine ⟨?_, ?_, ?_, ?_, hm⟩
      · exact ⟨fun _ => ⟨p, hmem, hp⟩, fun _ => ⟨_, p, sym, hres⟩⟩
      · intro i p' sym' hw
        rw [hres] at hw
        simp only [Option.some.injEq, TTT.TTTOutcome.winner.injEq] at hw
        obtain ⟨hi, hp', hsym'⟩ := hw
        subst hi; subst hp'; subst hsym'
        exact ⟨hmem, hsym, playerSymbols_getD_findIdx sym⟩
      · rw [hres]
        constructor
        · intro hw; simp at hw
        · rintro ⟨_, hno⟩; exact absurd ⟨p, hmem, hp⟩ hno
      · rw [hres]
        constructor
        · intro hw; simp at hw
        · rintro ⟨_, hno⟩; exact absurd ⟨p, hmem, hp⟩ hno
  | none =>
      have hall : ∀ q ∈ TTT.winPatterns, ¬ ((TTT.monoSym s.board q).isSome = true) := by
        intro q hq
        simpa using List.find?_eq_none.mp hfind q hq
      have hnl : ¬ TTT.hasLine s.board := by
        rintro ⟨q, hq, hmono⟩; exact hall q hq hmono
      have hres0 : TTT.checkGameEnd s =
          (if s.moves = 9 then some TTT.TTTOutcome.draw else none) := by
        unfold TTT.checkGameEnd
        rw [hfind]
      by_cases hmv : s.moves = 9
      · rw [hmv] at hres0
        simp only [if_pos rfl] at hres0
        refine ⟨?_, ?_, ?_, ?_, hm⟩
        · constructor
          · rintro ⟨i, p, sym, hw⟩; rw [hres0] at hw; simp at hw
          · intro hl; exact absurd hl hnl
        · intro i p sym hw; rw [hres0] at hw; simp at hw
        · rw [hres0]; exact ⟨fun _ => ⟨hmv, hnl⟩, fun _ => rfl⟩
        · rw [hres0]
          constructor
          · intro hw; simp at hw
          · rintro ⟨hne, _⟩; exact absurd hmv hne
      · rw [if_neg hmv] at hres0
        refine ⟨?_, ?_, ?_, ?_, hm⟩
        · constructor
          · rintro ⟨i, p, sym, hw⟩; rw [hres0] at hw; simp at hw
          · intro hl; exact absurd hl hnl
        · intro i p sym hw; rw [hres0] at hw; simp at hw
        · rw [hres0]
          constructor
          · intro hw; simp at hw
          · rintro ⟨h9', _⟩; exact absurd h9' hmv
        · rw [hres0]; exact ⟨fun _ => ⟨hmv, hnl⟩, fun _ => rfl⟩

/-- Witness for C4: the theorem applied to a concrete legal alternating game
in which X completes the top row. -/
theorem ttt_checkGameEnd_claim_witness :
    TTT.checkGameEnd (TTT.tttRun Scenario.actsW) =
      some (TTT.TTTOutcome.winner 0 (0, 1, 2) TTT.Sym.X)
    ∧ TTT.hasLine (TTT.tttRun Scenario.actsW).board := by
  refine ⟨by decide, ?_⟩
  exact (ttt_checkGameEnd_claim Scenario.actsW).1.mp ⟨0, (0, 1, 2), TTT.Sym.X, by decide⟩

/-- C5: RockPaperScissorsGame.determineRoundWinner is anti-symmetric on all
nine pairs of valid choices, and every identical pair is a draw. -/
theorem rps_resolve_antisymmetric (a b : RPS.Choice) :
    (RPS.determineRoundWinner (some a) (some b) = 0 ↔
      RPS.determineRoundWinner (some b) (some a) = 1)
    ∧ (RPS.determineRoundWinner (some a) (some b) = 1 ↔
      RPS.determineRoundWinner (some b) (some a) = 0)
    ∧ RPS.determineRoundWinner (some a) (some a) = -1 := by
  cases a <;> cases b <;> decide

/-- C9: GameRegistry.createGame returns an engine exactly when the game id is
registered and the player count lies within the config's min/max range. -/
theorem createGame_player_count_spec (gameId : String) (playerCount : Nat) :
    (Registry.createGame gameId playerCount).isSome ↔
      ∃ cfg, mget Registry.games gameId = some cfg ∧
        cfg.minPlayers ≤ playerCount ∧ playerCount ≤ cfg.maxPlayers := by
  cases h : mget Registry.games gameId with
  | none => simp [Registry.createGame, h]
  | some cfg =>
      simp only [Registry.createGame, h]
      constructor
      · intro hs
        by_cases hcond : playerCount < cfg.minPlayers ∨ playerCount > cfg.maxPlayers
        · rw [if_pos hcond] at hs; simp at hs
        · push_neg at hcond
          exact ⟨cfg, rfl, by omega, by omega⟩
      · rintro ⟨cfg', hcfg, h1, h2⟩
        obtain rfl : cfg = cfg' := Option.some.inj hcfg
        rw [if_neg (by omega)]
        simp

/-- C6: in both embedded ReactionTimeGame.checkGameEnd variants, a single
recorded click makes that player the unique winner whatever the timestamp,
and zero recorded clicks give a draw with both scores 0. -/
theorem reaction_single_click_claim (p q : String) (hpq : p ≠ q) (t g : Int) :
    (RTBoth.checkGameEnd [p, q] [(p, t)] g =
      { winnerId := some p, isDraw := false, scores := [(p, 1), (q, 0)] })
    ∧ (RTBoth.checkGameEnd [p, q] [(q, t)] g =
      { winnerId := some q, isDraw := false, scores := [(p, 0), (q, 1)] })
    ∧ (RTBoth.checkGameEnd [p, q] [] g =
      { winnerId := none, isDraw := true, scores := [(p, 0), (q, 0)] })
    ∧ (RTFirst.checkGameEnd [p, q] [(p, t)] =
      { winnerId := some p, isDraw := false, scores := [(p, 1), (q, 0)] })
    ∧ (RTFirst.checkGameEnd [p, q] [(q, t)] =
      { winnerId := some q, isDraw := false, scores := [(p, 0), (q, 1)] })
    ∧ (RTFirst.checkGameEnd [p, q] [] =
      { winnerId := none, isDraw := true, scores := [(p, 0), (q, 0)] }) := by
  refine ⟨?_, ?_, ?_, ?_, ?_, ?_⟩ <;>
    simp [RTBoth.checkGameEnd, RTFirst.checkGameEnd, RTBoth.reactionTimesOf,
      RTBoth.fastestIn, hpq, Ne.symm hpq]

/-- Witness for C6: the theorem applied to the concrete players alice and bob
with bob the lone clicker. -/
theorem reaction_single_click_claim_witness :
    RTBoth.checkGameEnd ["alice", "bob"] [("bob", 5)] 2 =
      { winnerId := some "bob", isDraw := false,
        scores := [("alice", 0), ("bob", 1)] }
    ∧ RTFirst.checkGameEnd ["alice", "bob"] [] =
      { winnerId := none, isDraw := true,
        scores := [("alice", 0), ("bob", 0)] } := by
  have h := reaction_single_click_claim "alice" "bob" (by decide) 5 2
  exact ⟨h.2.1, h.2.2.2.2.2⟩

/-! Lemmas for the match-score bookkeeping of endGame. -/

theorem updateMatchScores_sum (scores : List (String × Nat)) (r : GameResult)
    (p1 p2 : String) (hne : p1 ≠ p2)
    (hw : r.winnerId.isSome → r.isDraw = false →
      (r.winnerId = some p1 ∨ r.winnerId = some p2)) :
    Server.matchScoreSum (Server.updateMatchScores scores r) p1 p2 =
      Server.matchScoreSum scores p1 p2 +
        (if r.winnerId.isSome && !r.isDraw then 1 else 0) := by
  cases hq : r.winnerId with
  | none => simp [Server.updateMatchScores, hq]
  | some w =>
      cases hd : r.isDraw with
      | true => simp [Server.updateMatchScores, hq, hd]
      | false =>
          have hw' : w = p1 ∨ w = p2 := by
            rcases hw (by simp [hq]) hd with h1 | h1 <;> rw [hq] at h1
            · exact Or.inl (Option.some.inj h1)
            · exact Or.inr (Option.some.inj h1)
          simp only [Server.updateMatchScores, hq, hd, Bool.not_false,
            Option.isSome_some, Bool.and_self, if_true, if_false,
            Bool.false_eq_true, ite_true]
          rcases hw' with rfl | rfl
          · unfold Server.matchScoreSum
            rw [mget_mset_self, mget_mset_ne scores _ hne]
            cases hv : mget scores w <;> simp [hv] <;> omega
          · unfold Server.matchScoreSum
            rw [mget_mset_self, mget_mset_ne scores _ (Ne.symm hne)]
            cases hv : mget scores w <;> simp [hv] <;> omega

theorem foldl_updateMatchScores_sum (p1 p2 : String) (hne : p1 ≠ p2)
    (rs : List GameResult)
    (hw : ∀ r ∈ rs, r.winnerId.isSome → r.isDraw = false →
      (r.winnerId = some p1 ∨ r.winnerId = some p2)) :
    ∀ scores,
      Server.matchScoreSum (rs.foldl Server.updateMatchScores scores) p1 p2 =
        Server.matchScoreSum scores p1 p2 +
          rs.countP (fun r => r.winnerId.isSome && !r.isDraw) := by
  induction rs with
  | nil => intro scores; simp
  | cons r rest ih =>
      intro scores
      simp only [List.foldl_cons, List.countP_cons]
      rw [ih (fun x hx => hw x (List.mem_cons_of_mem r hx)),
        updateMatchScores_sum scores r p1 p2 hne (hw r (List.mem_cons_self r rest))]
      by_cases hdec : (r.winnerId.isSome && !r.isDraw) = true <;> simp [hdec] <;> omega

/-- C8: starting from the zero score map created by createMatch for two
distinct players, folding the endGame score update over any list of game
results whose decisive winners are among the two players makes the sum of the
two players' cumulative match scores equal the number of decisive (non-draw)
results; draws add nothing. -/
theorem match_scores_sum_claim (p1 p2 : String) (hne : p1 ≠ p2)
    (rs : List GameResult)
    (hw : ∀ r ∈ rs, r.winnerId.isSome → r.isDraw = false →
      (r.winnerId = some p1 ∨ r.winnerId = some p2)) :
    Server.matchScoreSum
        (rs.foldl Server.updateMatchScores (mset (mset [] p1 0) p2 0)) p1 p2 =
      rs.countP (fun r => r.winnerId.isSome && !r.isDraw) := by
  rw [foldl_updateMatchScores_sum p1 p2 hne rs hw]
  have hinit : Server.matchScoreSum (mset (mset [] p1 0) p2 0) p1 p2 = 0 := by
    simp [Server.matchScoreSum, mset, mget, hne, Ne.symm hne]
  rw [hinit]
  omega

/-- Witness for C8: two decisive games and one draw between players a and b
give cumulative scores summing to 2. -/
theorem match_scores_sum_claim_witness :
    Server.matchScoreSum
      ([{ winnerId := some "a", isDraw := false, scores := [] },
        { winnerId := none, isDraw := true, scores := [] },
        { winnerId := some "b", isDraw := false, scores := [] }].foldl
          Server.updateMatchScores (mset (mset [] "a" 0) "b" 0)) "a" "b" = 2 := by
  have h := match_scores_sum_claim "a" "b" (by decide)
    [{ winnerId := some "a", isDraw := false, scores := [] },
     { winnerId := none, isDraw := true, scores := [] },
     { winnerId := some "b", isDraw := false, scores := [] }] (by decide)
  rw [h]
  decide

theorem broadcast_filter_oppDisc (q : List Server.Player) :
    (Server.broadcastQueueStatusEmits q).filter
      (fun e => decide (e.2 = Server.Ev.opponentDisconnected)) = [] := by
  apply List.filter_eq_nil_iff.mpr
  intro e he
  obtain ⟨ip, _, rfl⟩ := List.mem_map.mp he
  simp

/-- C10: when a disconnecting player sits in an active game with an opponent,
the disconnect handler emits exactly one opponent-disconnected event, to that
opponent, and deletes the game instance from activeGames, while activeMatches
and playerToMatch are left exactly as they were. -/
theorem disconnect_frame_claim (s : Server.ServerState) (sid : String)
    (gi : Server.GameInstance) (opp : Server.Player)
    (hfind : Server.findGameInstance s sid = some gi)
    (hopp : gi.players.find? (fun p => decide (p.id ≠ sid)) = some opp) :
    (Server.disconnect s sid).1.activeMatches = s.activeMatches
    ∧ (Server.disconnect s sid).1.playerToMatch = s.playerToMatch
    ∧ (Server.disconnect s sid).1.activeGames = mdel s.activeGames gi.id
    ∧ (Server.disconnect s sid).2.filter
        (fun e => decide (e.2 = Server.Ev.opponentDisconnected))
      = [(opp.id, Server.Ev.opponentDisconnected)] := by
  have hq : Server.findGameInstance
      { s with waitingQueue := Server.removePlayerFromQueue s.waitingQueue sid }
      sid = some gi := hfind
  simp only [Server.disconnect, hq, hopp]
  refine ⟨trivial, trivial, trivial, ?_⟩
  simp [List.filter_append, broadcast_filter_oppDisc]

/-- Witness for C10: alice disconnects from the running game g1 of the
concrete trace; bob is notified and the match bookkeeping is untouched. -/
theorem disconnect_frame_claim_witness :
    (Server.disconnect Scenario.s3 "alice").1.activeMatches =
      Scenario.s3.activeMatches
    ∧ (Server.disconnect Scenario.s3 "alice").1.playerToMatch =
      Scenario.s3.playerToMatch
    ∧ (Server.disconnect Scenario.s3 "alice").2.filter
        (fun e => decide (e.2 = Server.Ev.opponentDisconnected))
      = [("bob", Server.Ev.opponentDisconnected)] := by
  have h := disconnect_frame_claim Scenario.s3 "alice" Scenario.gi1val
    Scenario.bobP (by decide) (by decide)
  exact ⟨h.1, h.2.1, h.2.2.2⟩

/-- C1 counterexample: in the concrete trace, the rage-quit of alice emits
exactly one opponent-rage-quit to bob, yet the next firing of the still
installed game timer emits a further timer-update game event to bob, so the
remaining player does receive further game events for that match. -/
theorem rageQuit_counterexample :
    Scenario.rageOut.2 = [("bob", Server.Ev.opponentRageQuit)]
    ∧ ("bob", Server.Ev.timerUpdate 14) ∈ Scenario.tickOut.2 := by decide

/-- C1 amended: a rage-quit removes the Match and both routing-index entries
and sends the remaining player exactly one opponent-rage-quit event, and any
later end-of-game processing for a game of that match emits nothing (so no
game-end is ever delivered); but the active GameInstance and its timers are
not torn down, so timer-driven game events can still reach the remaining
player until the game duration elapses. -/
theorem rageQuit_amended_claim (s : Server.ServerState) (sid matchId : String)
    (m : Server.Match) (opp : Server.Player)
    (h1 : mget s.playerToMatch sid = some matchId)
    (h2 : mget s.activeMatches matchId = some m)
    (h3 : m.players.find? (fun p => decide (p.id ≠ sid)) = some opp) :
    (Server.rageQuit s sid).2 = [(opp.id, Server.Ev.opponentRageQuit)]
    ∧ mget (Server.rageQuit s sid).1.activeMatches matchId = none
    ∧ (∀ p ∈ m.players, mget (Server.rageQuit s sid).1.playerToMatch p.id = none)
    ∧ (Server.rageQuit s sid).1.activeGames = s.activeGames
    ∧ (∀ gid gi r, mget (Server.rageQuit s sid).1.activeGames gid = some gi →
        gi.matchId = matchId →
        (Server.endGame (Server.rageQuit s sid).1 gid r).2 = []) := by
  simp only [Server.rageQuit, h1, h2, h3]
  refine ⟨trivial, mget_mdel_self _ _, ?_, trivial, ?_⟩
  · intro p hp
    exact mget_foldl_mdel_mem (fun p => p.id) m.players s.playerToMatch p.id
      ⟨p, hp, rfl⟩
  · intro gid gi r hg hmid
    simp only [Server.endGame, hg, hmid, mget_mdel_self]

/-- Witness for C1: the amended theorem applied to the concrete trace at the
moment alice rage-quits the running game. -/
theorem rageQuit_amended_claim_witness :
    (Server.rageQuit Scenario.s3 "alice").2 = [("bob", Server.Ev.opponentRageQuit)]
    ∧ mget (Server.rageQuit Scenario.s3 "alice").1.activeMatches "m1" = none
    ∧ (Server.rageQuit Scenario.s3 "alice").1.activeGames =
      Scenario.s3.activeGames := by
  have h := rageQuit_amended_claim Scenario.s3 "alice" "m1" Scenario.m1val
    Scenario.bobP (by decide) (by decide) (by decide)
  exact ⟨h.1, h.2.1, h.2.2.2.1⟩

/-- C2 evaluated at the failing input: when game creation fails after pairing
(an unregistered game type heads the chosen sequence), both players do get a
matchmaking-error and both return to the queue, but the half-created Match is
left behind: activeMatches keeps the m1 record, both playerToMatch entries
still point at m1, and only activeGames is empty. -/
theorem joinQueue_rollback_gap :
    (Scenario.c2out.2.filter
        (fun e => decide (e.2 = Server.Ev.matchmakingError))).map Prod.fst
      = ["alice", "bob"]
    ∧ Scenario.c2out.1.waitingQueue.map Server.Player.id = ["alice", "bob"]
    ∧ (mget Scenario.c2out.1.activeMatches "m1").isSome = true
    ∧ mget Scenario.c2out.1.playerToMatch "alice" = some "m1"
    ∧ mget Scenario.c2out.1.playerToMatch "bob" = some "m1"
    ∧ Scenario.c2out.1.activeGames = [] := by decide

/-- C3 evaluated at the failing input: a connection already waiting in the
queue that emits join-queue again is paired with itself; the created Match
and game instance both seat the connectionId alice twice. -/
theorem joinQueue_self_pairing :
    (mget Scenario.c3out.1.activeMatches "m1").map
        (fun m => m.players.map Server.Player.id) = some ["alice", "alice"]
    ∧ (mget Scenario.c3out.1.activeGames "g1").map
        (fun gi => gi.players.map Server.Player.id) = some ["alice", "alice"] := by
  decide

/-- C7 evaluated at the failing inputs: an unseated connection zed submitting
a valid rock-paper-scissors choice is not ignored: the round resolves against
an undefined second choice, player two is awarded the round and round-result
events are emitted; and in whack-a-mole an unseated zed targeting the active
mole mutates the score object (a NaN entry under key -1) and then throws a
TypeError. -/
theorem engine_ghost_action_bug :
    (Scenario.rpsGhostOut.1.scores = (0, 1)
      ∧ Scenario.rpsGhostOut.1.rounds = 1
      ∧ Scenario.rpsGhostOut.2 =
          [RPS.REmit.roundResult 0 RPS.RoundView.opponent,
           RPS.REmit.roundResult 1 RPS.RoundView.you])
    ∧ (Scenario.wamGhostOut.2.2 = true
      ∧ Scenario.wamGhostOut.1.scores = [(0, some 0), (1, some 0), (-1, none)]) := by
  decide

end QuickGame
